import Mathlib

/-!
Verification of the Dolphin STEM-solver orchestration core.

The definitions below are a shallow embedding of the repository's
service layer (geminiService: solveProblem, generateExplanationVideo,
performSearch, translateText), the App-level video auth-retry handler
and query history (App.tsx), and the per-language translation cache
(SolutionViewer.tsx).  Remote calls are modelled by passing their
outcomes in explicitly as Except values (or as a finite trace of
status responses for the polling loop); JavaScript truthiness on
optional strings is modelled by `truthy`.
-/

set_option linter.unusedVariables false

namespace Dolphin

/-- JavaScript truthiness of an optional string: undefined/null and the
empty string are falsy, every other string is truthy. -/
def truthy : Option String → Bool
  | some s => s != ""
  | none => false

/-! ### Data model (types.ts and the grounding-chunk shape used by performSearch) -/

/-- One entry of SearchResult.webSources: { uri, title }. -/
structure WebSource where
  uri : String
  title : String
deriving DecidableEq

/-- The web info carried by a grounding chunk (chunk.web), with both
fields possibly absent. -/
structure WebInfo where
  uri : Option String
  title : Option String
deriving DecidableEq

/-- A grounding chunk as read from
searchResponse.candidates[0].groundingMetadata.groundingChunks. -/
structure GroundingChunk where
  web : Option WebInfo
deriving DecidableEq

/-- The Stage-1 search response as consumed by performSearch: its text
body (possibly absent or empty) and its grounding chunks. -/
structure SearchResponse where
  text : Option String
  chunks : List GroundingChunk
deriving DecidableEq

/-- SearchResult from types.ts.  performSearch always assigns a string
to `verification` (possibly empty), so it is a plain String here. -/
structure SearchResult where
  text : String
  webSources : List WebSource
  verification : String
deriving DecidableEq

/-! ### performSearch (src/unnamed/part_000, lines 164-232) -/

/-- The filter on grounding chunks: keep a chunk only when
`chunk.web?.uri && chunk.web?.title` is truthy, i.e. both fields are
present and non-empty. -/
def chunkKeep (c : GroundingChunk) : Bool :=
  match c.web with
  | some w => truthy w.uri && truthy w.title
  | none => false

/-- The map step `{ uri: chunk.web.uri, title: chunk.web.title }`.
Absent fields read as the empty string (after `chunkKeep` they are
always present and non-empty). -/
def chunkToSource (c : GroundingChunk) : WebSource :=
  match c.web with
  | some w => { uri := w.uri.getD "", title := w.title.getD "" }
  | none => { uri := "", title := "" }

/-- One `Map.set(s.uri, s)` step of `new Map(webSources.map(s => [s.uri, s]))`:
when the key already exists its value is replaced in place (the key keeps
its original insertion position); otherwise the pair is appended. -/
def mapInsert (acc : List (String × WebSource)) (s : WebSource) :
    List (String × WebSource) :=
  if acc.any (fun p => p.1 == s.uri) then
    acc.map (fun p => if p.1 == s.uri then (p.1, s) else p)
  else acc ++ [(s.uri, s)]

/-- `Array.from(new Map(webSources.map(s => [s.uri, s])).values())`:
fold the sources through Map insertion and read the values back in key
insertion order. -/
def dedupeByUri (ws : List WebSource) : List WebSource :=
  (ws.foldl mapInsert []).map Prod.snd

/-- performSearch.  `searchCall` is the outcome of the Stage-1 grounded
search request and `verifyCall` the outcome of the Stage-2 verification
request (its Option String is the response text).  The Stage-2 failure
is caught locally and replaced by the fixed fallback string; a Stage-1
failure is rethrown by the outer catch. -/
def performSearch (apiKey : String) (searchCall : Except String SearchResponse)
    (verifyCall : Except String (Option String)) : Except String SearchResult :=
  if apiKey = "" then Except.error "API Key not found"
  else
    match searchCall with
    | Except.error e => Except.error e
    | Except.ok resp =>
      let searchText := if truthy resp.text then resp.text.getD "" else "No results found."
      let uniqueSources := dedupeByUri ((resp.chunks.filter chunkKeep).map chunkToSource)
      let verificationText :=
        match verifyCall with
        | Except.ok t => if truthy t then t.getD "" else ""
        | Except.error _ => "Could not verify result at this time."
      Except.ok { text := searchText, webSources := uniqueSources,
                  verification := verificationText }

/-! ### generateExplanationVideo (src/unnamed/part_000, lines 123-158) -/

/-- The innermost video descriptor (operation.response.generatedVideos[i].video). -/
structure Video where
  uri : Option String
deriving DecidableEq

/-- One element of operation.response.generatedVideos. -/
structure GeneratedVideo where
  video : Option Video
deriving DecidableEq

/-- operation.response. -/
structure OperationResponse where
  generatedVideos : Option (List GeneratedVideo)
deriving DecidableEq

/-- The operation handle returned by generateVideos / getVideosOperation. -/
structure Operation where
  done : Bool
  response : Option OperationResponse
deriving DecidableEq

/-- `operation.response?.generatedVideos?.[0]?.video?.uri`. -/
def operationVideoUri (op : Operation) : Option String :=
  match op.response with
  | none => none
  | some r =>
    match r.generatedVideos with
    | none => none
    | some [] => none
    | some (g :: _) =>
      match g.video with
      | none => none
      | some v => v.uri

/-- The fixed wait inside the polling loop: `setTimeout(resolve, 10000)`. -/
def pollIntervalMs : Nat := 10000

/-- The `while (!operation.done)` polling loop.  `refreshes` is the
finite trace of operations returned by successive getVideosOperation
calls; each consumed refresh stands for one wait-and-recheck cycle
(one fixed pollIntervalMs wait followed by one status request), counted
in `cycles`.  `none` means the trace was exhausted with the loop still
running (the code itself has no attempt bound). -/
def pollLoop : Operation → List Operation → Nat → Option (Operation × Nat)
  | op, [], cycles => if op.done then some (op, cycles) else none
  | op, r :: rest, cycles =>
    if op.done then some (op, cycles) else pollLoop r rest (cycles + 1)

/-- generateExplanationVideo.  `submit` is the outcome of the
generateVideos job submission; `refreshes` is the trace of polled
statuses.  Note there is no missing-key precheck: the key (possibly
empty) is only appended to the returned URI.  The result pairs the
returned download link with the number of wait-and-recheck cycles
performed; `none` means the poll never saw done=true within the trace. -/
def generateExplanationVideo (apiKey : String) (submit : Except String Operation)
    (refreshes : List Operation) : Option (Except String (String × Nat)) :=
  match submit with
  | Except.error e => some (Except.error e)
  | Except.ok op =>
    match pollLoop op refreshes 0 with
    | none => none
    | some (final, cycles) =>
      match operationVideoUri final with
      | none => some (Except.error "Video generation failed or returned no URI")
      | some uri => some (Except.ok (uri ++ "&key=" ++ apiKey, cycles))

/-! ### translateText (src/unnamed/part_000, lines 238-268) -/

/-- translateText.  `call` is the outcome of the translation request;
on success the code returns `response.text || text`, so an absent or
empty response body yields the original source text. -/
def translateText (apiKey text targetLanguage : String)
    (call : Except String (Option String)) : Except String String :=
  if apiKey = "" then Except.error "API Key not found"
  else
    match call with
    | Except.error e => Except.error e
    | Except.ok t => Except.ok (if truthy t then t.getD "" else text)

/-! ### solveProblem (src/unnamed/part_000, lines 28-118) -/

/-- One property of the declared responseSchema: an optional enum
constraint (all three declared properties have type STRING). -/
structure FieldSchema where
  enumVals : Option (List String)
deriving DecidableEq

/-- The responseSchema shape passed in the request config. -/
structure ResponseSchema where
  properties : List (String × FieldSchema)
  required : List String
deriving DecidableEq

/-- The exact responseSchema solveProblem declares (lines 96-104):
three required string fields, confidence restricted to High/Medium/Low. -/
def solveResponseSchema : ResponseSchema :=
  { properties :=
      [("solutionMarkdown", { enumVals := none }),
       ("visualPrompt", { enumVals := none }),
       ("confidence", { enumVals := some ["High", "Medium", "Low"] })],
    required := ["solutionMarkdown", "visualPrompt", "confidence"] }

/-- Modelled from the spec: the inference service enforces the declared
responseSchema ("the service is configured to enforce this schema";
glossary: "Schema-enforced response: a response whose shape the service
guarantees to match a declared field/type specification").  The
enforcement itself runs inside the external service, not in src/; this
predicate states what it accepts: every required field is present, and
every field carries a declared property whose enum constraint (if any)
contains the value.  A response is modelled as its parsed JSON object,
a list of string fields. -/
def conformsTo (schema : ResponseSchema) (resp : List (String × String)) : Bool :=
  schema.required.all (fun f => (resp.lookup f).isSome) &&
  resp.all (fun kv =>
    match schema.properties.lookup kv.1 with
    | some fs =>
      match fs.enumVals with
      | some es => es.contains kv.2
      | none => true
    | none => false)

/-- solveProblem.  `call` is the outcome of the generateContent request,
its payload the parsed JSON object of the response text (`none` when the
response has no usable text, which the code turns into the
"No response from AI" error).  The code performs no local validation
beyond JSON parsing (`JSON.parse(text) as SolutionData`), so the fields
are returned as delivered. -/
def solveProblem (apiKey : String)
    (call : Except String (Option (List (String × String)))) :
    Except String (List (String × String)) :=
  if apiKey = "" then Except.error "API Key not found"
  else
    match call with
    | Except.error e => Except.error e
    | Except.ok none => Except.error "No response from AI"
    | Except.ok (some fields) => Except.ok fields

/-! ### handleGenerateVideo auth-retry (src/App.tsx, lines 156-192) -/

/-- App.tsx videoStatus values. -/
inductive VideoStatus
  | idle
  | generating
  | completed
  | error
deriving DecidableEq

/-- The App-level state observed by the video auth-retry protocol,
instrumented with counters for credential-selection interactions and
job-submission attempts. -/
structure VideoAppState where
  apiKeySelected : Bool
  videoStatus : VideoStatus
  videoUri : Option String
  selectKeyCalls : Nat
  attempts : Nat
deriving DecidableEq

/-- handleSelectKey: run the credential-selection interaction and
optimistically set the flag (the host capability is assumed present). -/
def selectKey (s : VideoAppState) : VideoAppState :=
  { s with apiKeySelected := true, selectKeyCalls := s.selectKeyCalls + 1 }

/-- Character-list version of `startsWith`. -/
def startsWithChars : List Char → List Char → Bool
  | _, [] => true
  | [], _ :: _ => false
  | c :: cs, q :: qs => c == q && startsWithChars cs qs

/-- Character-list substring test: some tail of `s` starts with `pat`. -/
def containsChars (s pat : List Char) : Bool :=
  match s with
  | [] => startsWithChars [] pat
  | _ :: rest => startsWithChars s pat || containsChars rest pat

/-- `s.includes(pat)` on the underlying character lists. -/
def containsSubstr (s pat : String) : Bool :=
  containsChars s.data pat.data

/-- The entity-not-found check of handleGenerateVideo: the error message
or its serialization contains "Requested entity was not found" or "404".
The error is modelled by its message string, which is what both the
message and the JSON serialization expose. -/
def isEntityNotFound (e : String) : Bool :=
  containsSubstr e "Requested entity was not found" ||
  containsSubstr e "404"

/-- Take the next generateExplanationVideo outcome from the supplied
trace (an exhausted trace reads as a non-matching failure). -/
def nextResult : List (Except String String) →
    Except String String × List (Except String String)
  | [] => (Except.error "", [])
  | r :: rs => (r, rs)

/-- handleGenerateVideo.  `visualPrompt` is `solution?.visualPrompt`
(absent or empty is falsy and aborts); `results` is the trace of
generateExplanationVideo outcomes, one per submission attempt. -/
def handleGenerateVideo (visualPrompt : Option String)
    (results : List (Except String String)) (s0 : VideoAppState) : VideoAppState :=
  if truthy visualPrompt then
    let s1 := if s0.apiKeySelected then s0 else selectKey s0
    let s2 := { s1 with videoStatus := VideoStatus.generating }
    let step1 := nextResult results
    match step1.1 with
    | Except.ok uri =>
      { s2 with attempts := s2.attempts + 1, videoUri := some uri,
                videoStatus := VideoStatus.completed }
    | Except.error e =>
      let s3 := { s2 with attempts := s2.attempts + 1 }
      if isEntityNotFound e then
        let s4 := selectKey { s3 with apiKeySelected := false }
        let s5 := { s4 with videoStatus := VideoStatus.generating }
        match (nextResult step1.2).1 with
        | Except.ok uri =>
          { s5 with attempts := s5.attempts + 1, videoUri := some uri,
                    videoStatus := VideoStatus.completed }
        | Except.error _ =>
          { s5 with attempts := s5.attempts + 1, videoStatus := VideoStatus.error }
      else { s3 with videoStatus := VideoStatus.error }
  else s0

/-! ### addToHistory (src/App.tsx, lines 194-204) -/

/-- `query.trim()` on the underlying character list: strip leading and
trailing whitespace. -/
def trimString (s : String) : String :=
  ⟨((s.data.dropWhile Char.isWhitespace).reverse.dropWhile Char.isWhitespace).reverse⟩

/-- addToHistory: trim the query, drop it if empty, otherwise prepend it
to the history purged of exact duplicates and keep at most 5 entries. -/
def addToHistory (query : String) (prev : List String) : List String :=
  let cleanQuery := trimString query
  if cleanQuery = "" then prev
  else (cleanQuery :: prev.filter (fun q => q != cleanQuery)).take 5

/-! ### SolutionViewer translation cache (src/components/SolutionViewer.tsx, lines 21-57) -/

/-- The SolutionViewer component state relevant to translation,
instrumented with a counter of translateText invocations. -/
structure ViewerState where
  language : String
  translations : List (String × String)
  remoteCalls : Nat
deriving DecidableEq

/-- JS object spread update `{...prev, [k]: v}`: an existing key keeps
its position and gets the new value, a new key is appended. -/
def cacheInsert (cache : List (String × String)) (k v : String) :
    List (String × String) :=
  if cache.any (fun p => p.1 == k) then
    cache.map (fun p => if p.1 == k then (p.1, v) else p)
  else cache ++ [(k, v)]

/-- `translations[k]` as an optional lookup. -/
def cacheGet (cache : List (String × String)) (k : String) : Option String :=
  cache.lookup k

/-- handleLanguageChange.  `translateCall` is the outcome that
translateText would produce if invoked; it is consulted only on the
cache-miss branch, where the remote call happens (counted in
remoteCalls).  Note the cache check `if (translations[newLang])` is a
truthiness test, so a cached empty string reads as a miss. -/
def handleLanguageChange (solutionMarkdown : String)
    (translateCall : Except String String) (newLang : String)
    (s : ViewerState) : ViewerState :=
  if newLang = s.language then s
  else
    let s1 := { s with language := newLang }
    if newLang = "English" then s1
    else if truthy (cacheGet s1.translations newLang) then s1
    else
      let s2 := { s1 with remoteCalls := s1.remoteCalls + 1 }
      match translateCall with
      | Except.ok translated =>
        { s2 with translations := cacheInsert s2.translations newLang translated }
      | Except.error _ => { s2 with language := "English" }

/-- contentToDisplay: the original markdown in English, otherwise
`translations[language] || data.solutionMarkdown`. -/
def contentToDisplay (solutionMarkdown : String) (s : ViewerState) : String :=
  if s.language = "English" then solutionMarkdown
  else
    match cacheGet s.translations s.language with
    | some t => if t = "" then solutionMarkdown else t
    | none => solutionMarkdown

/-- The initial SolutionViewer state: English, empty cache. -/
def initialViewerState : ViewerState :=
  { language := "English", translations := [], remoteCalls := 0 }

/-! ### Concrete operation traces for the polling claims -/

/-- A not-yet-done operation handle. -/
def falseOp : Operation := { done := false, response := none }

/-- A completed operation carrying one generated video with the given
(possibly absent) URI. -/
def doneOp (uri : Option String) : Operation :=
  { done := true,
    response := some { generatedVideos := some [{ video := some { uri := uri } }] } }

/-- The first status read and the subsequent refresh trace of a job that
reports done=false for the first n status reads and then done=true with
the given video URI. -/
def statusTrace (n : Nat) (uri : Option String) : Operation × List Operation :=
  match n with
  | 0 => (doneOp uri, [])
  | Nat.succ k => (falseOp, List.replicate k falseOp ++ [doneOp uri])

/-! ## Helper lemmas -/

theorem pollLoop_of_done (op : Operation) (l : List Operation) (c : Nat)
    (h : op.done = true) : pollLoop op l c = some (op, c) := by
  cases l <;> simp [pollLoop, h]

theorem pollLoop_replicate_false (k : Nat) (op d : Operation)
    (rest : List Operation) (c : Nat)
    (hop : op.done = false) (hd : d.done = true) :
    pollLoop op (List.replicate k falseOp ++ d :: rest) c = some (d, c + k + 1) := by
  induction k generalizing op c with
  | zero =>
    simp [pollLoop, hop]
    rw [pollLoop_of_done d rest (c + 1) hd]
  | succ k ih =>
    rw [List.replicate_succ, List.cons_append]
    show (if op.done then _ else pollLoop falseOp _ (c + 1)) = _
    rw [hop]
    simp only [Bool.false_eq_true, if_false]
    rw [ih falseOp (c + 1) rfl]
    have harith : c + 1 + k + 1 = c + (k + 1) + 1 := by omega
    rw [harith]

theorem pollLoop_isSome_iff (op : Operation) (l : List Operation) (c : Nat) :
    (pollLoop op l c).isSome = (op.done || l.any (fun r => r.done)) := by
  induction l generalizing op c with
  | nil => by_cases h : op.done <;> simp [pollLoop, h]
  | cons r rest ih => by_cases h : op.done <;> simp [pollLoop, h, ih]

theorem pollLoop_all_false (op : Operation) (l : List Operation) (c : Nat)
    (hop : op.done = false) (hl : ∀ r ∈ l, r.done = false) :
    pollLoop op l c = none := by
  induction l generalizing op c with
  | nil => simp [pollLoop, hop]
  | cons r rest ih =>
    simp only [pollLoop, hop, Bool.false_eq_true, if_false]
    exact ih r (c + 1) (hl r (by simp)) (fun x hx => hl x (by simp [hx]))

theorem lookup_mem {k v : String} :
    ∀ {l : List (String × String)}, l.lookup k = some v → (k, v) ∈ l := by
  intro l
  induction l with
  | nil => intro h; simp [List.lookup] at h
  | cons p tl ih =>
    intro h
    obtain ⟨pk, pv⟩ := p
    by_cases hk : k = pk
    · subst hk
      simp [List.lookup] at h
      simp [h]
    · simp only [List.lookup, beq_eq_false_iff_ne.mpr hk] at h
      exact List.mem_cons_of_mem _ (ih h)

/-! ## Claims -/

/-- C1 (counterexample): the claim says that for input citations
[(uriA,t1),(uriB,t2),(uriA,t3)] performSearch produces webSources
[(uriA,t1),(uriB,t2)] with the first occurrence winning.  On the code,
Map insertion keeps the first-seen key position but replaces the value,
so the last duplicate's title wins: the actual output is
[(uriA,t3),(uriB,t2)], which differs from the claimed output. -/
theorem performSearch_dedup_firstTitle_counterexample :
    performSearch "k"
      (Except.ok
        { text := some "ans",
          chunks := [⟨some ⟨some "uriA", some "t1"⟩⟩, ⟨some ⟨some "uriB", some "t2"⟩⟩,
                     ⟨some ⟨some "uriA", some "t3"⟩⟩] })
      (Except.ok (some "v"))
      = Except.ok
          { text := "ans",
            webSources := [⟨"uriA", "t3"⟩, ⟨"uriB", "t2"⟩],
            verification := "v" } ∧
    ([⟨"uriA", "t3"⟩, ⟨"uriB", "t2"⟩] : List WebSource) ≠
      [⟨"uriA", "t1"⟩, ⟨"uriB", "t2"⟩] :=
  ⟨rfl, by decide⟩

/-- C1 (amended): performSearch keeps only citations whose URI and title
are both present and non-empty, and deduplicates them by URI preserving
first-seen URI order, with the last occurrence's title winning: for the
citation pattern [(uriA,t1),(uriB,t2),(uriA,t3)] (surrounded by chunks
that fail the filter: an empty URI, a missing web field, an empty title)
the resulting webSources is exactly [(uriA,t3),(uriB,t2)]. -/
theorem performSearch_dedup_lastTitleWins
    (apiKey ans v uriA uriB t1 t2 t3 tx uriC : String)
    (hk : apiKey ≠ "") (hans : ans ≠ "") (hv : v ≠ "")
    (hAB : uriA ≠ uriB) (hA : uriA ≠ "") (hB : uriB ≠ "")
    (h1 : t1 ≠ "") (h2 : t2 ≠ "") (h3 : t3 ≠ "") :
    performSearch apiKey
      (Except.ok
        { text := some ans,
          chunks := [⟨some ⟨some "", some tx⟩⟩, ⟨none⟩,
                     ⟨some ⟨some uriA, some t1⟩⟩, ⟨some ⟨some uriB, some t2⟩⟩,
                     ⟨some ⟨some uriA, some t3⟩⟩, ⟨some ⟨some uriC, some ""⟩⟩] })
      (Except.ok (some v)) =
    Except.ok { text := ans, webSources := [⟨uriA, t3⟩, ⟨uriB, t2⟩],
                verification := v } := by
  simp [performSearch, truthy, chunkKeep, chunkToSource, dedupeByUri, mapInsert,
        hk, hans, hv, hAB, Ne.symm hAB, hA, hB, h1, h2, h3]

/-- C1 witness for the amended theorem at concrete strings. -/
theorem performSearch_dedup_lastTitleWins_witness :
    performSearch "k"
      (Except.ok
        { text := some "ans",
          chunks := [⟨some ⟨some "", some "tx"⟩⟩, ⟨none⟩,
                     ⟨some ⟨some "uriA", some "t1"⟩⟩, ⟨some ⟨some "uriB", some "t2"⟩⟩,
                     ⟨some ⟨some "uriA", some "t3"⟩⟩, ⟨some ⟨some "uriC", some ""⟩⟩] })
      (Except.ok (some "v")) =
    Except.ok { text := "ans", webSources := [⟨"uriA", "t3"⟩, ⟨"uriB", "t2"⟩],
                verification := "v" } :=
  performSearch_dedup_lastTitleWins "k" "ans" "v" "uriA" "uriB" "t1" "t2" "t3" "tx" "uriC"
    (by decide) (by decide) (by decide) (by decide) (by decide) (by decide)
    (by decide) (by decide) (by decide)

/-- C2: when the Stage-2 verification call fails while Stage-1 search
succeeded, performSearch still returns successfully; its text and
webSources agree with what the same Stage-1 outcome yields under a
successful verification call, and verification is the literal fallback
string "Could not verify result at this time.". -/
theorem performSearch_verificationFallback
    (apiKey : String) (hk : apiKey ≠ "") (resp : SearchResponse)
    (e : String) (v : Option String) :
    ∃ r r', performSearch apiKey (Except.ok resp) (Except.error e) = Except.ok r ∧
      performSearch apiKey (Except.ok resp) (Except.ok v) = Except.ok r' ∧
      r.text = r'.text ∧ r.webSources = r'.webSources ∧
      r.verification = "Could not verify result at this time." := by
  have h1 : performSearch apiKey (Except.ok resp) (Except.error e) =
      Except.ok ⟨if truthy resp.text then resp.text.getD "" else "No results found.",
        dedupeByUri ((resp.chunks.filter chunkKeep).map chunkToSource),
        "Could not verify result at this time."⟩ := by
    unfold performSearch
    rw [if_neg hk]
  have h2 : performSearch apiKey (Except.ok resp) (Except.ok v) =
      Except.ok ⟨if truthy resp.text then resp.text.getD "" else "No results found.",
        dedupeByUri ((resp.chunks.filter chunkKeep).map chunkToSource),
        if truthy v then v.getD "" else ""⟩ := by
    unfold performSearch
    rw [if_neg hk]
  exact ⟨_, _, h1, h2, rfl, rfl, rfl⟩

/-- C2 witness at a concrete key, Stage-1 response and failure. -/
theorem performSearch_verificationFallback_witness :
    ∃ r r', performSearch "k"
        (Except.ok { text := some "ans", chunks := [⟨some ⟨some "u", some "t"⟩⟩] })
        (Except.error "boom") = Except.ok r ∧
      performSearch "k"
        (Except.ok { text := some "ans", chunks := [⟨some ⟨some "u", some "t"⟩⟩] })
        (Except.ok (some "fine")) = Except.ok r' ∧
      r.text = r'.text ∧ r.webSources = r'.webSources ∧
      r.verification = "Could not verify result at this time." :=
  performSearch_verificationFallback "k" (by decide)
    { text := some "ans", chunks := [⟨some ⟨some "u", some "t"⟩⟩] } "boom" (some "fine")

/-- C3: for a job whose status reads report done=false n times and then
done=true, generateExplanationVideo performs exactly n wait-and-recheck
cycles (each a fixed pollIntervalMs = 10000 ms wait followed by a
re-issued status request), then returns the first generated video's URI
with the key appended as a query parameter; if the completed operation
carries no video URI it fails with the no-URI error. -/
theorem generateExplanationVideo_pollCycles (n : Nat) (apiKey uri : String) :
    generateExplanationVideo apiKey (Except.ok (statusTrace n (some uri)).1)
        (statusTrace n (some uri)).2 =
      some (Except.ok (uri ++ "&key=" ++ apiKey, n)) ∧
    generateExplanationVideo apiKey (Except.ok (statusTrace n none).1)
        (statusTrace n none).2 =
      some (Except.error "Video generation failed or returned no URI") ∧
    pollIntervalMs = 10000 := by
  refine ⟨?_, ?_, rfl⟩ <;> cases n with
  | zero =>
    simp [statusTrace, generateExplanationVideo, pollLoop, doneOp, operationVideoUri]
  | succ k =>
    simp only [statusTrace, generateExplanationVideo]
    rw [pollLoop_replicate_false k falseOp (doneOp _) [] 0 rfl rfl]
    simp [operationVideoUri, doneOp]

/-- C4: when the first video submission fails with an entity-not-found
class error, handleGenerateVideo clears the key flag, re-runs the
credential-selection interaction exactly once, and re-attempts the
submission exactly once; if the retry succeeds the final video state is
completed with the returned URI, and if the retry also fails the final
state is error — in both cases with exactly one extra selection
interaction and exactly two submission attempts in total. -/
theorem handleGenerateVideo_entityNotFound_retry
    (s : VideoAppState) (p e uri e2 : String)
    (hk : s.apiKeySelected = true) (hp : p ≠ "") (he : isEntityNotFound e = true) :
    (let out := handleGenerateVideo (some p) [Except.error e, Except.ok uri] s
     out.videoStatus = VideoStatus.completed ∧ out.videoUri = some uri ∧
     out.selectKeyCalls = s.selectKeyCalls + 1 ∧ out.attempts = s.attempts + 2) ∧
    (let out := handleGenerateVideo (some p) [Except.error e, Except.error e2] s
     out.videoStatus = VideoStatus.error ∧
     out.selectKeyCalls = s.selectKeyCalls + 1 ∧ out.attempts = s.attempts + 2) := by
  simp [handleGenerateVideo, truthy, hp, hk, he, nextResult, selectKey]

/-- C4 witness: a concrete entity-not-found failure followed by a
successful retry, and one followed by a failing retry. -/
theorem handleGenerateVideo_entityNotFound_retry_witness :
    (let out := handleGenerateVideo (some "p")
        [Except.error "Requested entity was not found", Except.ok "u"]
        ⟨true, VideoStatus.idle, none, 0, 0⟩
     out.videoStatus = VideoStatus.completed ∧ out.videoUri = some "u" ∧
     out.selectKeyCalls = 0 + 1 ∧ out.attempts = 0 + 2) ∧
    (let out := handleGenerateVideo (some "p")
        [Except.error "Requested entity was not found", Except.error "again"]
        ⟨true, VideoStatus.idle, none, 0, 0⟩
     out.videoStatus = VideoStatus.error ∧
     out.selectKeyCalls = 0 + 1 ∧ out.attempts = 0 + 2) :=
  handleGenerateVideo_entityNotFound_retry ⟨true, VideoStatus.idle, none, 0, 0⟩
    "p" "Requested entity was not found" "u" "again" rfl (by decide) (by decide)

/-- C5: the request declares a schema restricting confidence to exactly
High, Medium, Low (with all three fields required); every response the
schema-enforcing service delivers, and which solveProblem therefore
returns, carries one of those three confidence values, and a response
whose confidence is any fourth value fails schema validation. -/
theorem solveProblem_confidence_enum
    (apiKey : String) (hk : apiKey ≠ "") (resp : List (String × String))
    (hconf : conformsTo solveResponseSchema resp = true)
    (c sm vp : String) (hc : c ∉ (["High", "Medium", "Low"] : List String)) :
    (∃ fields, solveProblem apiKey (Except.ok (some resp)) = Except.ok fields ∧
      (fields.lookup "confidence" = some "High" ∨
       fields.lookup "confidence" = some "Medium" ∨
       fields.lookup "confidence" = some "Low")) ∧
    conformsTo solveResponseSchema
      [("solutionMarkdown", sm), ("visualPrompt", vp), ("confidence", c)] = false := by
  constructor
  · refine ⟨resp, by simp [solveProblem, hk], ?_⟩
    rw [conformsTo, Bool.and_eq_true] at hconf
    obtain ⟨hreq, hall⟩ := hconf
    rw [List.all_eq_true] at hreq hall
    have h1 : (resp.lookup "confidence").isSome := by
      have := hreq "confidence" (by simp [solveResponseSchema])
      simpa using this
    obtain ⟨v, hv⟩ := Option.isSome_iff_exists.mp h1
    have hmem := lookup_mem hv
    have hcheck := hall ("confidence", v) hmem
    simp [solveResponseSchema, List.lookup] at hcheck
    rcases hcheck with h | h | h <;> rw [h] at hv <;> simp [hv]
  · simp [conformsTo, solveResponseSchema, List.lookup, hc]

/-- C5 witness: a concrete conformant response, and the fourth value
"Certain". -/
theorem solveProblem_confidence_enum_witness :
    (∃ fields, solveProblem "k"
        (Except.ok (some [("solutionMarkdown", "s"), ("visualPrompt", "p"),
                          ("confidence", "High")])) = Except.ok fields ∧
      (fields.lookup "confidence" = some "High" ∨
       fields.lookup "confidence" = some "Medium" ∨
       fields.lookup "confidence" = some "Low")) ∧
    conformsTo solveResponseSchema
      [("solutionMarkdown", "s"), ("visualPrompt", "p"), ("confidence", "Certain")]
      = false :=
  solveProblem_confidence_enum "k" (by decide)
    [("solutionMarkdown", "s"), ("visualPrompt", "p"), ("confidence", "High")]
    (by decide) "Certain" "s" "p" (by decide)

/-- C6 (counterexample): the claim says re-requesting an
already-translated (text, language) pair never issues a second remote
call.  The cache check `if (translations[newLang])` is a truthiness
test, so after translating the empty source text (cached translation
"") the re-request misses the cache and issues a second remote call:
remoteCalls goes from 1 to 2 even though "Hindi" was already translated
and cached. -/
theorem translationCache_truthiness_counterexample :
    (let s1 := handleLanguageChange "" (Except.ok "") "Hindi" initialViewerState
     let s3 := handleLanguageChange "" (Except.ok "") "Hindi"
       (handleLanguageChange "" (Except.ok "") "English" s1)
     s1.translations.lookup "Hindi" = some "" ∧
     s1.remoteCalls = 1 ∧ s3.remoteCalls = 2) := by
  decide

/-- C6 (amended): for every (text, target-language) pair already
translated in the current session whose cached translation is
non-empty, re-requesting the same translation issues no second remote
call and displays exactly the previously cached output; in particular a
translate/switch-back/re-request round trip from the initial state
leaves the call count at the first call and re-displays the first
result byte for byte.  (A cached empty-string translation, possible
only for the empty source text, is treated as a miss by the truthiness
cache check and re-fetched.) -/
theorem translationCache_hit_nonempty
    (data t newLang : String) (s : ViewerState) (tc tc2 tc3 : Except String String)
    (hlang : newLang ≠ s.language) (hen : newLang ≠ "English")
    (hc : cacheGet s.translations newLang = some t) (ht : t ≠ "") :
    ((handleLanguageChange data tc newLang s).remoteCalls = s.remoteCalls ∧
      contentToDisplay data (handleLanguageChange data tc newLang s) = t) ∧
    (let s1 := handleLanguageChange data (Except.ok t) "Hindi" initialViewerState
     let s2 := handleLanguageChange data tc2 "English" s1
     let s3 := handleLanguageChange data tc3 "Hindi" s2
     s3.remoteCalls = s1.remoteCalls ∧ contentToDisplay data s3 = t) := by
  constructor
  · have hstep : handleLanguageChange data tc newLang s = { s with language := newLang } := by
      rw [handleLanguageChange, if_neg hlang, if_neg hen]
      simp [hc, truthy, ht]
    rw [hstep]
    exact ⟨rfl, by simp [contentToDisplay, hen, hc, ht]⟩
  · simp [handleLanguageChange, contentToDisplay, initialViewerState, cacheGet,
          cacheInsert, truthy, ht]

/-- C6 witness for the amended theorem at a concrete pre-populated
cache. -/
theorem translationCache_hit_nonempty_witness :
    ((handleLanguageChange "hello" (Except.error "down") "Hindi"
        ⟨"English", [("Hindi", "namaste")], 1⟩).remoteCalls = 1 ∧
      contentToDisplay "hello" (handleLanguageChange "hello" (Except.error "down") "Hindi"
        ⟨"English", [("Hindi", "namaste")], 1⟩) = "namaste") ∧
    (let s1 := handleLanguageChange "hello" (Except.ok "namaste") "Hindi" initialViewerState
     let s2 := handleLanguageChange "hello" (Except.error "down") "English" s1
     let s3 := handleLanguageChange "hello" (Except.error "down") "Hindi" s2
     s3.remoteCalls = s1.remoteCalls ∧ contentToDisplay "hello" s3 = "namaste") :=
  translationCache_hit_nonempty "hello" "namaste" "Hindi"
    ⟨"English", [("Hindi", "namaste")], 1⟩ (Except.error "down")
    (Except.error "down") (Except.error "down")
    (by decide) (by decide) (by decide) (by decide)

/-- History helper: one addToHistory step preserves Nodup. -/
theorem addToHistory_nodup (q : String) (h : List String) (hnd : h.Nodup) :
    (addToHistory q h).Nodup := by
  rw [addToHistory]
  split
  · exact hnd
  · refine List.Nodup.sublist (List.take_sublist _ _) ?_
    refine List.nodup_cons.mpr ⟨?_, hnd.filter _⟩
    simp [List.mem_filter]

/-- History helper: one addToHistory step keeps the length at most 5. -/
theorem addToHistory_length_le (q : String) (h : List String) (hlen : h.length ≤ 5) :
    (addToHistory q h).length ≤ 5 := by
  rw [addToHistory]
  split
  · exact hlen
  · exact List.length_take_le _ _

/-- History helper: folding any query sequence from a Nodup history of
length at most 5 keeps both properties. -/
theorem history_fold_invariant (qs : List String) :
    ∀ h : List String, h.Nodup → h.length ≤ 5 →
      ((qs.foldl (fun acc p => addToHistory p acc) h).Nodup ∧
       (qs.foldl (fun acc p => addToHistory p acc) h).length ≤ 5) := by
  induction qs with
  | nil => intro h hnd hlen; exact ⟨hnd, hlen⟩
  | cons q rest ih =>
    intro h hnd hlen
    exact ih _ (addToHistory_nodup q h hnd) (addToHistory_length_le q h hlen)

/-- History helper: adding a fresh non-empty query prepends it and keeps
the first 5 entries. -/
theorem addToHistory_fresh (q : String) (prev : List String)
    (hq : trimString q ≠ "") (hmem : trimString q ∉ prev) :
    addToHistory q prev = (trimString q :: prev).take 5 := by
  rw [addToHistory]
  rw [if_neg hq]
  have hfilter : prev.filter (fun x => x != trimString q) = prev :=
    List.filter_eq_self.mpr (fun a ha => by
      simp only [bne_iff_ne, ne_eq]
      exact fun hEq => hmem (hEq ▸ ha))
  rw [hfilter, List.take_succ_cons]

/-- C7: the query history built by folding any sequence of added queries
from the empty history is duplicate-free and holds at most 5 entries;
and adding a 6th distinct (trimmed, non-empty) query to a 5-entry
duplicate-free history prepends it as most recent and drops exactly the
least-recently-added entry, keeping 5 duplicate-free entries. -/
theorem addToHistory_invariant_and_bound
    (qs : List String) (q : String) (prev : List String)
    (h5 : prev.length = 5) (hnd : prev.Nodup)
    (hq : trimString q ≠ "") (hmem : trimString q ∉ prev) :
    ((qs.foldl (fun acc p => addToHistory p acc) []).Nodup ∧
      (qs.foldl (fun acc p => addToHistory p acc) []).length ≤ 5) ∧
    addToHistory q prev = trimString q :: prev.take 4 ∧
    (addToHistory q prev).Nodup ∧ (addToHistory q prev).length = 5 := by
  have hstep : addToHistory q prev = trimString q :: prev.take 4 := by
    rw [addToHistory_fresh q prev hq hmem]
    rfl
  refine ⟨history_fold_invariant qs [] (by simp) (by simp), hstep, ?_, ?_⟩
  · exact addToHistory_nodup q prev hnd
  · rw [hstep]
    simp [List.length_take, h5]

/-- C7 witness: a fold of three queries (one repeated), and a fresh 6th
query added to a full 5-entry history. -/
theorem addToHistory_invariant_and_bound_witness :
    (((["a", "b", "a"] : List String).foldl
        (fun acc p => addToHistory p acc) []).Nodup ∧
      ((["a", "b", "a"] : List String).foldl
        (fun acc p => addToHistory p acc) []).length ≤ 5) ∧
    addToHistory "q6" ["q1", "q2", "q3", "q4", "q5"] =
      trimString "q6" :: (["q1", "q2", "q3", "q4", "q5"] : List String).take 4 ∧
    (addToHistory "q6" ["q1", "q2", "q3", "q4", "q5"]).Nodup ∧
    (addToHistory "q6" ["q1", "q2", "q3", "q4", "q5"]).length = 5 :=
  addToHistory_invariant_and_bound ["a", "b", "a"] "q6" ["q1", "q2", "q3", "q4", "q5"]
    (by decide) (by decide) (by decide) (by decide)

/-- C8: within any finite status trace, the polling loop stops exactly
when some status read reports done=true (there is no attempt bound or
backoff): the loop's result is present iff the first read or some
refresh is done, and for every n the loop is still running after n
all-false refreshes, each cycle waiting the same fixed pollIntervalMs. -/
theorem pollLoop_terminates_iff_done (op : Operation) (refreshes : List Operation)
    (c n : Nat) :
    ((pollLoop op refreshes c).isSome =
      (op.done || refreshes.any (fun r => r.done))) ∧
    pollLoop falseOp (List.replicate n falseOp) 0 = none ∧
    pollIntervalMs = 10000 := by
  refine ⟨pollLoop_isSome_iff op refreshes c, ?_, rfl⟩
  exact pollLoop_all_false falseOp (List.replicate n falseOp) 0 rfl
    (fun r hr => by rw [List.eq_of_mem_replicate hr]; rfl)

/-- C9: when the translation call succeeds but returns an absent or
empty text body, translateText returns the original source text
unchanged (not a failure, not the empty string). -/
theorem translateText_empty_body_returns_source
    (apiKey text lang : String) (hk : apiKey ≠ "") :
    translateText apiKey text lang (Except.ok none) = Except.ok text ∧
    translateText apiKey text lang (Except.ok (some "")) = Except.ok text := by
  simp [translateText, truthy, hk]

/-- C9 witness at a concrete key and text. -/
theorem translateText_empty_body_returns_source_witness :
    translateText "k" "hello" "Hindi" (Except.ok none) = Except.ok "hello" ∧
    translateText "k" "hello" "Hindi" (Except.ok (some "")) = Except.ok "hello" :=
  translateText_empty_body_returns_source "k" "hello" "Hindi" (by decide)

/-- C10: with the key absent (empty), solveProblem, performSearch and
translateText each fail immediately with "API Key not found" whatever
their remote calls would return, while generateExplanationVideo still
runs the submitted job and, on completion, returns the URI with the
empty key appended as "&key=". -/
theorem missingKey_precheck_asymmetry
    (uri : String)
    (solveCall : Except String (Option (List (String × String))))
    (searchCall : Except String SearchResponse)
    (verifyCall : Except String (Option String))
    (text lang : String) (trCall : Except String (Option String)) :
    solveProblem "" solveCall = Except.error "API Key not found" ∧
    performSearch "" searchCall verifyCall = Except.error "API Key not found" ∧
    translateText "" text lang trCall = Except.error "API Key not found" ∧
    generateExplanationVideo "" (Except.ok (doneOp (some uri))) [] =
      some (Except.ok (uri ++ "&key=", 0)) := by
  refine ⟨rfl, rfl, rfl, ?_⟩
  show some (Except.ok (uri ++ "&key=" ++ "", 0)) = some (Except.ok (uri ++ "&key=", 0))
  rw [String.append_empty]

end Dolphin
